import Mathlib

/-!
Shallow embedding of `splunk_connector/core.py` (class `SplunkConnect`).

HTTP traffic is modelled by passing the remote service's response (or, for
polling loops, the per-call parsed poll result) as an explicit argument;
raised Python exceptions become `Except PyErr`; `time.sleep`/`time.time`
become an explicit count of completed poll intervals (each interval is
`POLL_TIME` seconds, polls themselves are instantaneous).
-/

/-- Python exceptions that the code under `src/` can raise, by their Python
class: `ValueError` (auth_head), `KeyError`/`TypeError`/`IndexError`
(dict/list indexing of parsed JSON), `json.JSONDecodeError` (`r.json()` on a
body that is not JSON), `RuntimeError` (the wait_poll timeout). -/
inductive PyErr where
  | valueError
  | keyError
  | typeError
  | indexError
  | jsonError
  | runtimeError
deriving DecidableEq, Repr

/-- A parsed JSON value, as returned by `requests.Response.json()`. Objects
keep their key order as a list of pairs. -/
inductive JVal where
  | null : JVal
  | bool : Bool → JVal
  | num : Int → JVal
  | str : String → JVal
  | arr : List JVal → JVal
  | obj : List (String × JVal) → JVal

/-- An HTTP response: status code plus parsed body; `body = none` models a
body on which `r.json()` raises (not parseable JSON). -/
structure HttpResponse where
  status : Nat
  body : Option JVal

/-- Python `d[k]` on a parsed JSON value: `KeyError` when the key is absent,
`TypeError` when the value is not a dict. -/
def jIndex (j : JVal) (k : String) : Except PyErr JVal :=
  match j with
  | .obj kvs =>
    match kvs.lookup k with
    | some v => .ok v
    | none => .error .keyError
  | _ => .error .typeError

/-- Python `l[n]` on a parsed JSON value: `IndexError` when out of range,
`TypeError` when the value is not a list. -/
def jArrIndex (j : JVal) (n : Nat) : Except PyErr JVal :=
  match j with
  | .arr l =>
    match l.get? n with
    | some v => .ok v
    | none => .error .indexError
  | _ => .error .typeError

/-- Python `d.get(k, default)` on a parsed JSON object (only applied to
values already known to be dicts). -/
def jGetD (j : JVal) (k : String) (d : JVal) : JVal :=
  match j with
  | .obj kvs => (kvs.lookup k).getD d
  | _ => d

/-- The whitespace characters stripped by Python's `str.strip()`
(restricted to the ASCII whitespace set). -/
def pyIsSpace (c : Char) : Bool :=
  c == ' ' || c == '\t' || c == '\n' || c == '\x0b' || c == '\x0c' || c == '\r'

/-- Python `str.strip()` on the character list: drop whitespace from the front,
then from the back. -/
def pyStripList (l : List Char) : List Char :=
  ((l.dropWhile pyIsSpace).reverse.dropWhile pyIsSpace).reverse

/-- Python `q.strip()`. -/
def pyStrip (s : String) : String :=
  String.mk (pyStripList s.data)

/-- Python `s.startswith(pre)`. -/
def pyStartsWith (s pre : String) : Bool :=
  pre.data.isPrefixOf s.data

/-- Model of `SplunkConnect._sanitize_query`: strip the query; if it starts with
neither `search` nor `|`, prepend `"search "`. A pure function. -/
def sanitize_query (q : String) : String :=
  let t := pyStrip q
  if !(pyStartsWith t "search") && !(pyStartsWith t "|") then "search " ++ t
  else t

/-- The base64 alphabet (RFC 4648), as used by Python's
`base64.b64encode`. -/
def b64Char (n : Nat) : Char :=
  ("ABCDEFGHIJKLMNOPQRSTUVWXYZabcdefghijklmnopqrstuvwxyz0123456789+/").data.getD n 'A'

/-- Python `base64.b64encode` on a byte sequence: 3 input bytes become 4 alphabet
characters; a 1- or 2-byte tail is padded with `=`. -/
def b64encode : List Nat → String
  | [] => ""
  | [a] => String.mk [b64Char (a / 4), b64Char (a % 4 * 16), '=', '=']
  | [a, b] =>
    String.mk [b64Char (a / 4), b64Char (a % 4 * 16 + b / 16), b64Char (b % 16 * 4), '=']
  | a :: b :: c :: rest =>
    String.mk [b64Char (a / 4), b64Char (a % 4 * 16 + b / 16),
               b64Char (b % 16 * 4 + c / 64), b64Char (c % 64)] ++ b64encode rest

/-- UTF-8 encoding of one character (Python `str.encode()` is UTF-8). -/
def utf8Char (c : Char) : List Nat :=
  let n := c.toNat
  if n < 0x80 then [n]
  else if n < 0x800 then [0xC0 + n / 0x40, 0x80 + n % 0x40]
  else if n < 0x10000 then
    [0xE0 + n / 0x1000, 0x80 + n / 0x40 % 0x40, 0x80 + n % 0x40]
  else
    [0xF0 + n / 0x40000, 0x80 + n / 0x1000 % 0x40, 0x80 + n / 0x40 % 0x40, 0x80 + n % 0x40]

/-- Python `s.encode()`: the UTF-8 bytes of a string. -/
def strBytes (s : String) : List Nat :=
  (s.data.map utf8Char).flatten

/-- Python `"%s" % x` for an `Optional[str]` argument: `None` formats as the
string `"None"`. -/
def pyStr : Option String → String
  | none => "None"
  | some s => s

/-- Python truthiness of an `Optional[str]`: `None` and `""` are falsy. -/
def pyTruthy : Option String → Bool
  | none => false
  | some s => s != ""

/-- Model of `SplunkConnect.auth_head(key, user, pw)`: on success, the stored
`self.head` entry (header name, header value); `ValueError` when no truthy
key is given and both `user` and `pw` are `None`. -/
def auth_head (key user pw : Option String) : Except PyErr (String × String) :=
  if pyTruthy key then .ok ("Authorization", "Splunk " ++ pyStr key)
  else if user.isNone && pw.isNone then .error .valueError
  else .ok ("Authorization", "Basic " ++ b64encode (strBytes (pyStr user ++ ":" ++ pyStr pw)))

/-- Model of the `SplunkConnect.list_saved_searches` dict comprehension: body of the dict comprehension
`(o['name'], o['content']['search'])`, element by element in order (a later
duplicate name would overwrite an earlier one in the Python dict; the
in-order pair list is the model of the mapping). -/
def savedSearchPairs : List JVal → Except PyErr (List (JVal × JVal))
  | [] => .ok []
  | o :: rest =>
    match jIndex o "name" with
    | .error e => .error e
    | .ok name =>
      match jIndex o "content" with
      | .error e => .error e
      | .ok content =>
        match jIndex content "search" with
        | .error e => .error e
        | .ok search =>
          match savedSearchPairs rest with
          | .error e => .error e
          | .ok tail => .ok ((name, search) :: tail)

/-- Python iteration `for o in x` over a parsed JSON value: a list yields its
elements, a dict its keys, a string its characters (each a 1-character
string); `None`, booleans and numbers are not iterable (`TypeError`). In
particular an empty dict or empty string iterates zero items. -/
def pyIterate : JVal → Except PyErr (List JVal)
  | .arr l => .ok l
  | .obj kvs => .ok (kvs.map (fun p => .str p.1))
  | .str s => .ok (s.data.map (fun c => .str (String.mk [c])))
  | _ => .error .typeError

/-- Model of `SplunkConnect.list_saved_searches`, applied to the remote's
response: `r.json()['entry']`, then the dict comprehension iterating over
that value. The HTTP status code of the response is never consulted by the
code. -/
def list_saved_searches (resp : HttpResponse) : Except PyErr (List (JVal × JVal)) :=
  match resp.body with
  | none => .error .jsonError
  | some j =>
    match jIndex j "entry" with
    | .error e => .error e
    | .ok entry =>
      match pyIterate entry with
      | .error e => .error e
      | .ok os => savedSearchPairs os

/-- Model of `SplunkConnect.poll_query`, applied to the job-status response:
`out = r.json()['entry'][0]['content']`, returning
`(out['isDone'], out.get('eventCount', 0))`. No waiting is performed: the
result is a function of the single response alone. -/
def poll_query (resp : HttpResponse) : Except PyErr (JVal × JVal) :=
  match resp.body with
  | none => .error .jsonError
  | some j =>
    match jIndex j "entry" with
    | .error e => .error e
    | .ok entry =>
      match jArrIndex entry 0 with
      | .error e => .error e
      | .ok e0 =>
        match jIndex e0 "content" with
        | .error e => .error e
        | .ok content =>
          match jIndex content "isDone" with
          | .error e => .error e
          | .ok isDone => .ok (isDone, jGetD content "eventCount" (.num 0))

/-- Constant `SplunkConnect.POLL_TIME`: seconds slept between successive polls. -/
def POLL_TIME : Nat := 1

/-- Constant `SplunkConnect.TIMEOUT`: maximum seconds to wait for a query to finish. -/
def TIMEOUT : Nat := 600

/-- The loop of `SplunkConnect.wait_poll`. `poll k` is the parsed result
`(isDone, eventCount)` of the k-th `poll_query` call (a raised exception
propagates). At iteration `k`, `k` sleeps of `pollTime` seconds have
elapsed, so `time.time() - time0 = k * pollTime` (polls are instantaneous in
the time model). The returned `Nat` is the iteration index at which the loop
stopped, i.e. the number of completed poll intervals. `fuel` bounds the
recursion; `none` models non-termination and is never reached from
`wait_poll`'s fuel when `0 < pollTime`. -/
def wait_poll_go (poll : Nat → Except PyErr (Bool × Nat)) (pollTime timeout : Nat) :
    Nat → Nat → Option (Except PyErr (Bool × Nat) × Nat)
  | 0, _ => none
  | fuel + 1, k =>
    match poll k with
    | .error e => some (.error e, k)
    | .ok (done, count) =>
      if done then some (.ok (done, count), k)
      else if k * pollTime > timeout then some (.error .runtimeError, k)
      else wait_poll_go poll pollTime timeout fuel (k + 1)

/-- Model of `SplunkConnect.wait_poll`: poll until done, raising `RuntimeError` once
the elapsed time exceeds `timeout`. Fuel `timeout + 2` suffices whenever
`0 < pollTime`, since the loop stops no later than iteration
`timeout + 1`. -/
def wait_poll (poll : Nat → Except PyErr (Bool × Nat)) (pollTime timeout : Nat) :
    Option (Except PyErr (Bool × Nat) × Nat) :=
  wait_poll_go poll pollTime timeout (timeout + 2) 0

/-- Python `range(start, stop, step)` for a positive step: the values
`start + k * step` strictly below `stop` (empty for `step = 0`, where Python
raises instead). -/
def pyRange (start stop step : Nat) : List Nat :=
  if step = 0 then []
  else (List.range ((stop - start + (step - 1)) / step)).map (fun k => start + k * step)

/-- The remote Splunk service as seen by the composite read methods:
`startQuery` maps the POSTed (sanitized) search string to the returned job
sid; `pollStatus sid k` is the parsed result of the k-th status poll of that
job; `fetch sid offset count` is the table that `get_dataframe` builds from
the CSV page at that offset/count. -/
structure Remote (α : Type) where
  startQuery : String → String
  pollStatus : String → Nat → Except PyErr (Bool × Nat)
  fetch : String → Nat → Nat → α

/-- Model of `SplunkConnect.read_pandas_iter(q, chunksize)`: start the (sanitized)
query, wait for completion, then yield
`get_dataframe(sid, offset=i, count=chunksize)` for `i in
range(0, count, chunksize)`. The generator's finite output is the returned
list; exceptions from the wait propagate; `none` models a wait that never
returns. -/
def read_pandas_iter (remote : Remote α) (pollTime timeout : Nat) (q : String)
    (chunksize : Nat) : Option (Except PyErr (List α)) :=
  let sid := remote.startQuery (sanitize_query q)
  match wait_poll (remote.pollStatus sid) pollTime timeout with
  | none => none
  | some (.error e, _) => some (.error e)
  | some (.ok (_, count), _) =>
    some (.ok ((pyRange 0 count chunksize).map (fun i => remote.fetch sid i chunksize)))

/-- The JSON entry of one saved search with name `p.1` and search `p.2`, as
in the documented wire format `entry: [..., (name, content: (search)), ...]`. -/
def savedSearchEntry (p : String × String) : JVal :=
  .obj [("name", .str p.1), ("content", .obj [("search", .str p.2)])]

/-- A well-formed saved-searches response body for the searches `l`. -/
def savedSearchesBody (l : List (String × String)) : JVal :=
  .obj [("entry", .arr (l.map savedSearchEntry))]

/-- A mock remote for a job that is immediately done with 250 events; pages
are recorded as their `(offset, count)` fetch descriptors. -/
def mockRemote250 : Remote (Nat × Nat) :=
  ⟨fun s => s, fun _ _ => .ok (true, 250), fun _ off cnt => (off, cnt)⟩

/-- A mock remote for a job that is immediately done with 0 events. -/
def mockRemoteEmpty : Remote (Nat × Nat) :=
  ⟨fun s => s, fun _ _ => .ok (true, 0), fun _ off cnt => (off, cnt)⟩

/-! ### Facts about `pyStripList` -/

theorem dropWhile_head?_false (p : α → Bool) (l : List α) (c : α)
    (h : (l.dropWhile p).head? = some c) : p c = false := by
  induction l with
  | nil => simp [List.dropWhile] at h
  | cons a l ih =>
    by_cases hp : p a
    · rw [List.dropWhile_cons_of_pos hp] at h
      exact ih h
    · rw [List.dropWhile_cons_of_neg hp] at h
      simp only [List.head?_cons, Option.some.injEq] at h
      subst h
      exact Bool.eq_false_iff.mpr hp

theorem dropWhile_eq_self_of_head? (p : α → Bool) (l : List α)
    (h : ∀ c, l.head? = some c → p c = false) : l.dropWhile p = l := by
  cases l with
  | nil => rfl
  | cons a l => exact List.dropWhile_cons_of_neg (by simp [h a rfl])

theorem stripList_getLast?_false (l : List Char) (c : Char)
    (h : (pyStripList l).getLast? = some c) : pyIsSpace c = false := by
  unfold pyStripList at h
  rw [List.getLast?_reverse] at h
  exact dropWhile_head?_false _ _ _ h

theorem stripList_head?_false (l : List Char) (c : Char)
    (h : (pyStripList l).head? = some c) : pyIsSpace c = false := by
  unfold pyStripList at h
  rw [List.head?_reverse] at h
  obtain ⟨w, hw⟩ := List.dropWhile_suffix (l := (l.dropWhile pyIsSpace).reverse) pyIsSpace
  have hu : (l.dropWhile pyIsSpace).head? = some c := by
    rw [← List.getLast?_reverse, ← hw, List.getLast?_append, h, Option.or_some]
  exact dropWhile_head?_false _ _ _ hu

theorem stripList_eq_self (l : List Char)
    (h1 : ∀ c, l.head? = some c → pyIsSpace c = false)
    (h2 : ∀ c, l.getLast? = some c → pyIsSpace c = false) :
    pyStripList l = l := by
  unfold pyStripList
  rw [dropWhile_eq_self_of_head? _ _ h1]
  rw [dropWhile_eq_self_of_head? _ _
    (fun c hc => h2 c (by rwa [List.head?_reverse] at hc))]
  exact List.reverse_reverse l

theorem stripList_idem (l : List Char) :
    pyStripList (pyStripList l) = pyStripList l :=
  stripList_eq_self _ (stripList_head?_false l) (stripList_getLast?_false l)

theorem pyStrip_pyStrip (s : String) : pyStrip (pyStrip s) = pyStrip s :=
  congrArg String.mk (stripList_idem s.data)

theorem startsWith_search_append (t : String) :
    pyStartsWith ("search " ++ t) "search" = true := by
  unfold pyStartsWith
  rw [String.data_append, List.isPrefixOf_iff_prefix]
  exact ⟨' ' :: t.data, rfl⟩

theorem stripList_search_append (tl : List Char) (ht : tl ≠ [])
    (hlast : ∀ c, tl.getLast? = some c → pyIsSpace c = false) :
    pyStripList (("search " : String).data ++ tl) = ("search " : String).data ++ tl := by
  apply stripList_eq_self
  · intro c hc
    have hh : ((("search " : String).data ++ tl).head? : Option Char) = some 's' := rfl
    rw [hh, Option.some.injEq] at hc
    subst hc
    decide
  · intro c hc
    rw [List.getLast?_append] at hc
    rcases hl : tl.getLast? with _ | d
    · exact absurd (List.getLast?_eq_none_iff.mp hl) ht
    · rw [hl, Option.or_some, Option.some.injEq] at hc
      subst hc
      exact hlast d hl

theorem pyStrip_search_append_strip (q : String) (ht : pyStrip q ≠ "") :
    pyStrip ("search " ++ pyStrip q) = "search " ++ pyStrip q := by
  have htl : pyStripList q.data ≠ [] := by
    intro h
    exact ht (congrArg String.mk h)
  apply String.ext
  show pyStripList (("search " ++ pyStrip q).data) = ("search " ++ pyStrip q).data
  rw [String.data_append]
  exact stripList_search_append _ htl (stripList_getLast?_false q.data)

/-- C1: `sanitize` first strips the query; if the stripped string starts with
neither `search` nor `|` it returns `"search "` prepended to it, otherwise it
returns the stripped string unchanged; the three quoted examples hold. (Being
a Lean function of its argument, `sanitize_query` is pure by construction.) -/
theorem claim1_sanitize_spec :
    (∀ q : String, pyStartsWith (pyStrip q) "search" = false →
      pyStartsWith (pyStrip q) "|" = false →
      sanitize_query q = "search " ++ pyStrip q) ∧
    (∀ q : String,
      (pyStartsWith (pyStrip q) "search" = true ∨ pyStartsWith (pyStrip q) "|" = true) →
      sanitize_query q = pyStrip q) ∧
    sanitize_query "stats count" = "search stats count" ∧
    sanitize_query "search foo" = "search foo" ∧
    sanitize_query "| stats count" = "| stats count" := by
  refine ⟨?_, ?_, by decide, by decide, by decide⟩
  · intro q h1 h2
    simp [sanitize_query, h1, h2]
  · intro q h
    rcases h with h | h <;> simp [sanitize_query, h]

/-- C1 witness: the first branch applied at `" stats count "`. -/
theorem claim1_sanitize_spec_witness :
    sanitize_query " stats count " = "search stats count" :=
  claim1_sanitize_spec.1 " stats count " (by decide) (by decide)

/-- C9 counterexample: `sanitize` is not idempotent at `""`:
`sanitize("") = "search "` (trailing space) but
`sanitize("search ") = "search"`. -/
theorem claim9_counterexample :
    sanitize_query (sanitize_query "") ≠ sanitize_query "" := by decide

/-- C9 (amended): `sanitize` is idempotent on every query whose stripped form
is nonempty (idempotence fails only on whitespace-only queries, where the
first application returns `"search "` and the second strips the trailing
space); the result of `sanitize` always starts with `search` or `|`. -/
theorem claim9_sanitize_idem_amended :
    (∀ q : String, pyStrip q ≠ "" →
      sanitize_query (sanitize_query q) = sanitize_query q) ∧
    (∀ q : String, pyStartsWith (sanitize_query q) "search" = true ∨
      pyStartsWith (sanitize_query q) "|" = true) := by
  constructor
  · intro q ht
    by_cases h1 : pyStartsWith (pyStrip q) "search" = true
    · have hq : sanitize_query q = pyStrip q := by simp [sanitize_query, h1]
      rw [hq]
      show (if _ then _ else _) = _
      rw [pyStrip_pyStrip q, if_neg (by simp [h1])]
    · by_cases h2 : pyStartsWith (pyStrip q) "|" = true
      · have hq : sanitize_query q = pyStrip q := by simp [sanitize_query, h2]
        rw [hq]
        show (if _ then _ else _) = _
        rw [pyStrip_pyStrip q, if_neg (by simp [h2])]
      · have hq : sanitize_query q = "search " ++ pyStrip q := by
          simp [sanitize_query, Bool.eq_false_iff.mpr h1, Bool.eq_false_iff.mpr h2]
        rw [hq]
        show (if _ then _ else _) = _
        rw [pyStrip_search_append_strip q ht,
          if_neg (by simp [startsWith_search_append (pyStrip q)])]
  · intro q
    by_cases h1 : pyStartsWith (pyStrip q) "search" = true
    · left
      have hq : sanitize_query q = pyStrip q := by simp [sanitize_query, h1]
      rw [hq]
      exact h1
    · by_cases h2 : pyStartsWith (pyStrip q) "|" = true
      · right
        have hq : sanitize_query q = pyStrip q := by simp [sanitize_query, h2]
        rw [hq]
        exact h2
      · left
        have hq : sanitize_query q = "search " ++ pyStrip q := by
          simp [sanitize_query, Bool.eq_false_iff.mpr h1, Bool.eq_false_iff.mpr h2]
        rw [hq]
        exact startsWith_search_append (pyStrip q)

/-- C9 witness: idempotence applied at the concrete query `" stats "`. -/
theorem claim9_sanitize_idem_amended_witness :
    sanitize_query (sanitize_query " stats ") = sanitize_query " stats " :=
  claim9_sanitize_idem_amended.1 " stats " (by decide)

/-- C2 counterexample: with no key, `user="a"` and no password, the claim
requires an `InvalidArgument` failure, but `auth_head` succeeds (encoding the
literal string `"a:None"`, since Python's `%s` formats `None` as `"None"`). -/
theorem claim2_counterexample :
    auth_head none (some "a") none = .ok ("Authorization", "Basic YTpOb25l") := rfl

/-- C2 (amended): `auth_head` raises `ValueError` exactly when no truthy key
is supplied and both `user` and `pw` are `None`; in every other case
(truthy key, or at least one of `user`/`pw` supplied) it succeeds. -/
theorem claim2_auth_head_error_amended :
    ∀ key user pw : Option String,
      (auth_head key user pw = .error .valueError ↔
        (pyTruthy key = false ∧ user = none ∧ pw = none)) ∧
      ((∃ v, auth_head key user pw = .ok v) ↔
        (pyTruthy key = true ∨ user ≠ none ∨ pw ≠ none)) := by
  intro key user pw
  by_cases hk : pyTruthy key = true
  · simp [auth_head, hk]
  · have hk' : pyTruthy key = false := Bool.eq_false_iff.mpr hk
    cases user <;> cases pw <;> simp [auth_head, hk']

/-- C2 witness: the error case of the amended claim at the all-absent call. -/
theorem claim2_auth_head_error_amended_witness :
    auth_head none none none = .error .valueError :=
  ((claim2_auth_head_error_amended none none none).1).mpr ⟨rfl, rfl, rfl⟩

/-- C6: a successful user/password `auth_head` stores
`"Basic " ++ base64(user ++ ":" ++ password)` (base64 over the UTF-8 bytes);
with a truthy session key it stores `"Splunk " ++ key`; and concretely
`auth_head(user="a", password="b")` stores `"Basic YTpi"`, where
`"YTpi" = base64("a:b")`. -/
theorem claim6_auth_head_values :
    (∀ u p : String, auth_head none (some u) (some p) =
      .ok ("Authorization", "Basic " ++ b64encode (strBytes (u ++ ":" ++ p)))) ∧
    (∀ k : String, k ≠ "" → auth_head (some k) none none =
      .ok ("Authorization", "Splunk " ++ k)) ∧
    auth_head none (some "a") (some "b") = .ok ("Authorization", "Basic YTpi") := by
  refine ⟨fun u p => rfl, fun k hk => ?_, rfl⟩
  have ht : pyTruthy (some k) = true := by
    simp [pyTruthy]
    exact hk
  simp [auth_head, ht, pyStr]

/-- C6 witness: the session-key branch applied at the key `"k"`. -/
theorem claim6_auth_head_values_witness :
    auth_head (some "k") none none = .ok ("Authorization", "Splunk k") :=
  claim6_auth_head_values.2.1 "k" (by decide)

theorem savedSearchPairs_canonical (l : List (String × String)) :
    savedSearchPairs (l.map savedSearchEntry) =
      .ok (l.map (fun p => (JVal.str p.1, JVal.str p.2))) := by
  induction l with
  | nil => rfl
  | cons p l ih =>
    have h : savedSearchPairs ((p :: l).map savedSearchEntry) =
        match savedSearchPairs (l.map savedSearchEntry) with
        | .error e => .error e
        | .ok tail => .ok ((JVal.str p.1, JVal.str p.2) :: tail) := rfl
    rw [h, ih]
    rfl

/-- C5 counterexample: a response with the non-2xx status 404 whose body is
well-formed JSON of the expected shape is answered with the (empty) mapping,
not with an error — the code never inspects the HTTP status, so the claim
"fails with a RemoteError on every non-2xx HTTP status" is false. -/
theorem claim5_counterexample :
    list_saved_searches ⟨404, some (.obj [("entry", .arr [])])⟩ = .ok [] := rfl

/-- C5 (amended): `list_saved_searches` never consults the HTTP status code
(its result is the same for any two statuses over the same body); it fails
when the body is not parseable JSON, when the parsed body has no `entry`
field, and when an entry element lacks `name`, lacks `content`, or lacks
`search` inside `content`; and on any well-formed saved-searches body it
returns the name-to-query mapping — all without retrying (the model consumes
exactly one response). -/
theorem claim5_saved_searches_amended :
    ∀ (s s' : Nat) (b : Option JVal) (l : List (String × String))
      (kvs kv2 kv3 : List (String × JVal)) (rest : List JVal) (v : JVal),
      list_saved_searches ⟨s, b⟩ = list_saved_searches ⟨s', b⟩ ∧
      list_saved_searches ⟨s, none⟩ = .error .jsonError ∧
      (kvs.lookup "entry" = none →
        list_saved_searches ⟨s, some (.obj kvs)⟩ = .error .keyError) ∧
      (kv2.lookup "name" = none →
        list_saved_searches ⟨s, some (.obj [("entry", .arr (.obj kv2 :: rest))])⟩ =
          .error .keyError) ∧
      (kv2.lookup "name" = some v → kv2.lookup "content" = none →
        list_saved_searches ⟨s, some (.obj [("entry", .arr (.obj kv2 :: rest))])⟩ =
          .error .keyError) ∧
      (kv2.lookup "name" = some v → kv2.lookup "content" = some (.obj kv3) →
        kv3.lookup "search" = none →
        list_saved_searches ⟨s, some (.obj [("entry", .arr (.obj kv2 :: rest))])⟩ =
          .error .keyError) ∧
      list_saved_searches ⟨s, some (savedSearchesBody l)⟩ =
        .ok (l.map (fun p => (JVal.str p.1, JVal.str p.2))) := by
  intro s s' b l kvs kv2 kv3 rest v
  have hpairs : list_saved_searches ⟨s, some (.obj [("entry", .arr (.obj kv2 :: rest))])⟩ =
      savedSearchPairs (.obj kv2 :: rest) := rfl
  refine ⟨rfl, rfl, ?_, ?_, ?_, ?_, ?_⟩
  · intro he
    simp only [list_saved_searches, jIndex, he]
  · intro hn
    rw [hpairs]
    conv_lhs => rw [savedSearchPairs]
    simp only [jIndex, hn]
  · intro hn hc
    rw [hpairs]
    conv_lhs => rw [savedSearchPairs]
    simp only [jIndex, hn, hc]
  · intro hn hc hs
    rw [hpairs]
    conv_lhs => rw [savedSearchPairs]
    simp only [jIndex, hn, hc, hs]
  · have h : list_saved_searches ⟨s, some (savedSearchesBody l)⟩ =
        savedSearchPairs (l.map savedSearchEntry) := rfl
    rw [h, savedSearchPairs_canonical]

/-- C5 witness: the amended claim's missing-`name` clause at a concrete entry
element lacking the field, and its success clause at a one-element body. -/
theorem claim5_saved_searches_amended_witness :
    list_saved_searches ⟨404, some (.obj [("entry", .arr [.obj [("other", .null)]])])⟩ =
      .error .keyError :=
  (claim5_saved_searches_amended 404 404 none [] [] [("other", JVal.null)] []
    [] JVal.null).2.2.2.1 rfl

/-- C8: on a well-formed status response, `poll_query` returns the pair
`(isDone, eventCount)` read from the first entry's `content`, where
`eventCount` falls back to `0` when the field is absent. It performs no
waiting: the result is a pure function of the single status response. -/
theorem claim8_poll_query_spec :
    ∀ (s : Nat) (j e0 content d : JVal) (rest : List JVal),
      jIndex j "entry" = .ok (.arr (e0 :: rest)) →
      jIndex e0 "content" = .ok content →
      jIndex content "isDone" = .ok d →
      poll_query ⟨s, some j⟩ = .ok (d, jGetD content "eventCount" (.num 0)) ∧
      (∀ kvs, content = .obj kvs → kvs.lookup "eventCount" = none →
        poll_query ⟨s, some j⟩ = .ok (d, .num 0)) := by
  intro s j e0 content d rest h1 h2 h3
  have hmain : poll_query ⟨s, some j⟩ = .ok (d, jGetD content "eventCount" (.num 0)) := by
    simp only [poll_query, h1, jArrIndex, List.get?, h2, h3]
  refine ⟨hmain, fun kvs hkvs hnone => ?_⟩
  rw [hmain, hkvs]
  simp [jGetD, hnone]

/-- C8 witness: a concrete status response whose `content` lacks
`eventCount`, returning the default `0`. -/
theorem claim8_poll_query_spec_witness :
    poll_query ⟨200, some (.obj [("entry",
      .arr [.obj [("content", .obj [("isDone", .bool false)])]])])⟩ =
      .ok (.bool false, .num 0) :=
  (claim8_poll_query_spec 200
      (.obj [("entry", .arr [.obj [("content", .obj [("isDone", .bool false)])]])])
      (.obj [("content", .obj [("isDone", .bool false)])])
      (.obj [("isDone", .bool false)])
      (.bool false) [] rfl rfl rfl).2
    [("isDone", .bool false)] rfl rfl

/-! ### The wait_poll loop -/

theorem wait_poll_go_never_done (poll : Nat → Except PyErr (Bool × Nat))
    (pollTime timeout : Nat) (hpt : 0 < pollTime)
    (hnever : ∀ k, ∃ c, poll k = .ok (false, c)) :
    ∀ fuel k, timeout < (k + fuel) * pollTime →
      wait_poll_go poll pollTime timeout (fuel + 1) k =
        some (.error .runtimeError, max k (timeout / pollTime + 1)) := by
  intro fuel
  induction fuel with
  | zero =>
    intro k hk
    rw [Nat.add_zero] at hk
    obtain ⟨c, hc⟩ := hnever k
    have hdiv : timeout / pollTime < k := (Nat.div_lt_iff_lt_mul hpt).mpr hk
    have hmax : max k (timeout / pollTime + 1) = k := Nat.max_eq_left hdiv
    simp only [wait_poll_go, hc, if_neg (Bool.false_ne_true), if_pos hk, hmax]
  | succ fuel ih =>
    intro k hk
    obtain ⟨c, hc⟩ := hnever k
    by_cases hstop : timeout < k * pollTime
    · have hdiv : timeout / pollTime < k := (Nat.div_lt_iff_lt_mul hpt).mpr hstop
      have hmax : max k (timeout / pollTime + 1) = k := Nat.max_eq_left hdiv
      simp only [wait_poll_go, hc, if_neg (Bool.false_ne_true), if_pos hstop, hmax]
    · have hrec := ih (k + 1) (by
        have : (k + 1) + fuel = k + (fuel + 1) := by omega
        rw [this]
        exact hk)
      have hdiv : k ≤ timeout / pollTime := (Nat.le_div_iff_mul_le hpt).mpr
        (Nat.le_of_not_lt hstop)
      have hmax : max (k + 1) (timeout / pollTime + 1) =
          max k (timeout / pollTime + 1) := by
        rw [Nat.max_eq_right (by omega), Nat.max_eq_right (by omega)]
      conv_lhs => rw [wait_poll_go]
      simp only [hc, if_neg (Bool.false_ne_true), if_neg hstop]
      rw [hrec, hmax]

/-- C3: when no poll ever reports the job done, `wait_poll` keeps polling at
the fixed interval and raises the timeout `RuntimeError` at the first poll
whose elapsed time `k * pollTime` exceeds the `timeout` ceiling, i.e. after
`timeout / pollTime + 1` completed intervals (601 intervals at the defaults
`POLL_TIME = 1`, `TIMEOUT = 600`); it never returns normally. -/
theorem claim3_wait_poll_timeout :
    ∀ (poll : Nat → Except PyErr (Bool × Nat)) (pollTime timeout : Nat),
      0 < pollTime →
      (∀ k, ∃ c, poll k = .ok (false, c)) →
      wait_poll poll pollTime timeout =
        some (.error .runtimeError, timeout / pollTime + 1) := by
  intro poll pollTime timeout hpt hnever
  show wait_poll_go poll pollTime timeout ((timeout + 1) + 1) 0 = _
  rw [wait_poll_go_never_done poll pollTime timeout hpt hnever (timeout + 1) 0
    (by
      calc timeout < timeout + 1 := Nat.lt_succ_self _
        _ = 0 + (timeout + 1) := (Nat.zero_add _).symm
        _ ≤ (0 + (timeout + 1)) * pollTime := Nat.le_mul_of_pos_right _ hpt)]
  rw [Nat.zero_max]

/-- C3 witness: a never-completing mock polled at the default interval and
ceiling times out with `RuntimeError` after 601 intervals. -/
theorem claim3_wait_poll_timeout_witness :
    wait_poll (fun _ => .ok (false, 0)) POLL_TIME TIMEOUT =
      some (.error .runtimeError, 601) :=
  claim3_wait_poll_timeout (fun _ => .ok (false, 0)) POLL_TIME TIMEOUT
    (by decide) (fun _ => ⟨0, rfl⟩)

theorem wait_poll_go_eventually_done (poll : Nat → Except PyErr (Bool × Nat))
    (pollTime timeout n count : Nat)
    (hlt : ∀ k, k < n → ∃ c, poll k = .ok (false, c))
    (hdone : poll n = .ok (true, count))
    (hin : ∀ k, k < n → ¬ timeout < k * pollTime) :
    ∀ fuel j, j ≤ n → n - j < fuel →
      wait_poll_go poll pollTime timeout fuel j = some (.ok (true, count), n) := by
  intro fuel
  induction fuel with
  | zero =>
    intro j _ hf
    exact absurd hf (Nat.not_lt_zero _)
  | succ fuel ih =>
    intro j hj hf
    rcases Nat.lt_or_ge j n with hjn | hjn
    · obtain ⟨c, hc⟩ := hlt j hjn
      simp only [wait_poll_go, hc, if_neg (Bool.false_ne_true), if_neg (hin j hjn)]
      exact ih (j + 1) hjn (by omega)
    · have hj' : j = n := Nat.le_antisymm hj hjn
      subst hj'
      simp [wait_poll_go, hdone]

/-- C7: when the polls report `isDone = false` for the first `n` polls and
`isDone = true` on poll `n`, and the elapsed time of every unfinished poll
stays within the timeout ceiling, `wait_poll` returns normally with
`isDone = true` and the event count reported by the final (done) poll, after
exactly `n` completed poll intervals (hence at least `n`). -/
theorem claim7_wait_poll_eventually_done :
    ∀ (poll : Nat → Except PyErr (Bool × Nat)) (pollTime timeout n count : Nat),
      0 < pollTime →
      (∀ k, k < n → ∃ c, poll k = .ok (false, c)) →
      poll n = .ok (true, count) →
      (∀ k, k < n → ¬ timeout < k * pollTime) →
      wait_poll poll pollTime timeout = some (.ok (true, count), n) := by
  intro poll pollTime timeout n count hpt hlt hdone hin
  have hn : n ≤ timeout + 1 := by
    rcases Nat.eq_zero_or_pos n with h0 | h0
    · omega
    · have hk := hin (n - 1) (by omega)
      have h1 : (n - 1) * pollTime ≤ timeout := Nat.le_of_not_lt hk
      have h2 : n - 1 ≤ (n - 1) * pollTime := Nat.le_mul_of_pos_right _ hpt
      omega
  exact wait_poll_go_eventually_done poll pollTime timeout n count hlt hdone hin
    (timeout + 2) 0 (Nat.zero_le _) (by omega)

/-- C7 witness: a mock that reports not-done for 3 polls and done (with 42
events) on the fourth returns `(true, 42)` after 3 poll intervals, at the
default interval and ceiling. -/
theorem claim7_wait_poll_eventually_done_witness :
    wait_poll (fun k => if k < 3 then .ok (false, 0) else .ok (true, 42))
      POLL_TIME TIMEOUT = some (.ok (true, 42), 3) :=
  claim7_wait_poll_eventually_done
    (fun k => if k < 3 then .ok (false, 0) else .ok (true, 42))
    POLL_TIME TIMEOUT 3 42 (by decide)
    (fun k hk => ⟨0, by simp [hk]⟩)
    (by rfl)
    (fun k hk => by
      show ¬ (600 < k * 1)
      omega)

/-! ### Chunked pagination -/

theorem read_pandas_iter_of_wait (remote : Remote α) (pollTime timeout : Nat)
    (q : String) (chunksize count m : Nat) (d : Bool)
    (hwait : wait_poll (remote.pollStatus (remote.startQuery (sanitize_query q)))
      pollTime timeout = some (.ok (d, count), m)) :
    read_pandas_iter remote pollTime timeout q chunksize =
      some (.ok ((pyRange 0 count chunksize).map
        (fun i => remote.fetch (remote.startQuery (sanitize_query q)) i chunksize))) := by
  simp only [read_pandas_iter]
  rw [hwait]

/-- C4: for a positive `chunksize`, once the wait reports a total of `count`
events, `read_pandas_iter` yields exactly the pages fetched at offsets
`0, chunksize, 2 * chunksize, ...` (the k-th page at offset `k * chunksize`,
with `⌈count / chunksize⌉` pages in all), each requesting `chunksize` rows;
every offset is strictly below `count`, and the pages jointly cover all
`count` events. -/
theorem claim4_read_pandas_iter_chunks :
    ∀ {α : Type} (remote : Remote α) (pollTime timeout : Nat) (q : String)
      (chunksize count m : Nat) (d : Bool),
      0 < chunksize →
      wait_poll (remote.pollStatus (remote.startQuery (sanitize_query q)))
        pollTime timeout = some (.ok (d, count), m) →
      read_pandas_iter remote pollTime timeout q chunksize =
        some (.ok ((List.range ((count + (chunksize - 1)) / chunksize)).map
          (fun k => remote.fetch (remote.startQuery (sanitize_query q))
            (k * chunksize) chunksize))) ∧
      (∀ k, k < (count + (chunksize - 1)) / chunksize → k * chunksize < count) ∧
      count ≤ ((count + (chunksize - 1)) / chunksize) * chunksize := by
  intro α remote pollTime timeout q chunksize count m d hc hwait
  refine ⟨?_, ?_, ?_⟩
  · rw [read_pandas_iter_of_wait remote pollTime timeout q chunksize count m d hwait]
    simp [pyRange, Nat.pos_iff_ne_zero.mp hc, List.map_map, Function.comp_def]
  · intro k hk
    have h1 : k + 1 ≤ (count + (chunksize - 1)) / chunksize := hk
    have h2 : (k + 1) * chunksize ≤ count + (chunksize - 1) :=
      (Nat.le_div_iff_mul_le hc).mp h1
    rw [Nat.succ_mul] at h2
    omega
  · have hdm := Nat.div_add_mod (count + (chunksize - 1)) chunksize
    have hmod : (count + (chunksize - 1)) % chunksize < chunksize :=
      Nat.mod_lt _ hc
    have hcm : chunksize * ((count + (chunksize - 1)) / chunksize) =
        ((count + (chunksize - 1)) / chunksize) * chunksize := Nat.mul_comm _ _
    omega

/-- C4 witness: `chunksize = 100` against an `eventCount = 250` job yields
exactly 3 chunks, at offsets 0, 100 and 200, each requesting 100 rows. -/
theorem claim4_read_pandas_iter_chunks_witness :
    read_pandas_iter mockRemote250 POLL_TIME TIMEOUT "stats count" 100 =
      some (.ok [(0, 100), (100, 100), (200, 100)]) :=
  (claim4_read_pandas_iter_chunks mockRemote250 POLL_TIME TIMEOUT "stats count"
    100 250 0 true (by decide) rfl).1.trans rfl

/-- C10: when the completed job reports `eventCount = 0`, `read_pandas_iter`
yields the empty sequence for every positive `chunksize`: no page is fetched
(`remote.fetch` appears in no element of the empty output) and no table is
produced. -/
theorem claim10_read_pandas_iter_empty :
    ∀ {α : Type} (remote : Remote α) (pollTime timeout : Nat) (q : String)
      (chunksize m : Nat) (d : Bool),
      0 < chunksize →
      wait_poll (remote.pollStatus (remote.startQuery (sanitize_query q)))
        pollTime timeout = some (.ok (d, 0), m) →
      read_pandas_iter remote pollTime timeout q chunksize = some (.ok []) := by
  intro α remote pollTime timeout q chunksize m d hc hwait
  rw [read_pandas_iter_of_wait remote pollTime timeout q chunksize 0 m d hwait]
  have hr : pyRange 0 0 chunksize = [] := by
    have h0 : (chunksize - 1) / chunksize = 0 := by
      apply Nat.div_eq_of_lt
      omega
    simp [pyRange, Nat.pos_iff_ne_zero.mp hc, h0]
  rw [hr]
  rfl

/-- C10 witness: an `eventCount = 0` job produces no chunks at
`chunksize = 100`. -/
theorem claim10_read_pandas_iter_empty_witness :
    read_pandas_iter mockRemoteEmpty POLL_TIME TIMEOUT "stats count" 100 =
      some (.ok ([] : List (Nat × Nat))) :=
  claim10_read_pandas_iter_empty mockRemoteEmpty POLL_TIME TIMEOUT "stats count"
    100 0 true (by decide) rfl
